import Mathlib

/-!
# Verification of the dtm-weekly-insights aggregation pipeline

Shallow embedding of the weekly marketing-report generator
(`dashboard/scripts/generate-report.js` and the seven fetcher modules
`ga4.js`, `gsc.js`, `youtube.js`, `kit.js`, `meta.js`, `unbounce.js`,
`vimeo.js`).  JavaScript numbers are modelled as rationals (`ℚ`); the
arithmetic in the claims is exact at every input considered.  JavaScript
`null`/absent values are modelled with `Option`, and nullish/truthiness
coercions are made explicit at each use site, following the source.
-/

namespace DTM

/-- Model of JavaScript `Math.round` on rationals.  ECMA-262 specifies
`Math.round x` as the integer closest to `x`, with halfway cases rounded
toward positive infinity, which is exactly `⌊x + 1/2⌋` (stated as
`mathRound_eq`; written with `Rat.floor` so that it computes by `decide`). -/
def mathRound (x : ℚ) : ℤ := (x + 1/2).floor

/-- JavaScript truthiness of a possibly-null number: `null`/`undefined`
and `0` are falsy. -/
def truthyQ : Option ℚ → Bool
  | none => false
  | some x => decide (x ≠ 0)

/-- JavaScript truthiness of a possibly-unset environment string:
`undefined` and the empty string are falsy. -/
def truthyStr : Option String → Bool
  | none => false
  | some s => decide (s ≠ "")

namespace GA4

/-- `pct` from `fetchers/ga4.js`:
`if (!previous || previous === 0) return null;
 return Math.round(((current - previous) / previous) * 1000) / 10;`
A `null` current operand coerces to `0` in JS arithmetic, hence `getD 0`. -/
def pct (current previous : Option ℚ) : Option ℚ :=
  if truthyQ previous then
    some ((mathRound ((current.getD 0 - previous.getD 0) / previous.getD 0 * 1000) : ℚ) / 10)
  else
    none

end GA4

namespace YouTube

/-- `pct` from `fetchers/youtube.js` (textually identical to the GA4 copy). -/
def pct (current previous : Option ℚ) : Option ℚ :=
  if truthyQ previous then
    some ((mathRound ((current.getD 0 - previous.getD 0) / previous.getD 0 * 1000) : ℚ) / 10)
  else
    none

end YouTube

namespace MetaAds

/-- `pct` from `fetchers/meta.js` (textually identical to the GA4 copy). -/
def pct (current previous : Option ℚ) : Option ℚ :=
  if truthyQ previous then
    some ((mathRound ((current.getD 0 - previous.getD 0) / previous.getD 0 * 1000) : ℚ) / 10)
  else
    none

/-- `round` from `fetchers/meta.js`:
`const factor = Math.pow(10, decimals); return Math.round(val * factor) / factor;`
(default `decimals = 2` at call sites that omit the argument). -/
def round (val : ℚ) (decimals : ℕ) : ℚ :=
  let factor : ℚ := 10 ^ decimals
  (mathRound (val * factor) : ℚ) / factor

end MetaAds

namespace Unbounce

/-- `pct` from `fetchers/unbounce.js` (textually identical to the GA4 copy). -/
def pct (current previous : Option ℚ) : Option ℚ :=
  if truthyQ previous then
    some ((mathRound ((current.getD 0 - previous.getD 0) / previous.getD 0 * 1000) : ℚ) / 10)
  else
    none

/-- `round` from `fetchers/unbounce.js` (default `decimals = 1`). -/
def round (val : ℚ) (decimals : ℕ) : ℚ :=
  let factor : ℚ := 10 ^ decimals
  (mathRound (val * factor) : ℚ) / factor

/-- `avg` from `fetchers/unbounce.js`:
`if (!arr.length) return 0; return arr.reduce((a,b) => a+b, 0) / arr.length;` -/
def avg (arr : List ℚ) : ℚ :=
  if arr.length = 0 then 0 else arr.sum / arr.length

end Unbounce

namespace Vimeo

/-- `pct` from `fetchers/vimeo.js` (textually identical to the GA4 copy). -/
def pct (current previous : Option ℚ) : Option ℚ :=
  if truthyQ previous then
    some ((mathRound ((current.getD 0 - previous.getD 0) / previous.getD 0 * 1000) : ℚ) / 10)
  else
    none

/-- `round` from `fetchers/vimeo.js` (default `decimals = 1`). -/
def round (val : ℚ) (decimals : ℕ) : ℚ :=
  let factor : ℚ := 10 ^ decimals
  (mathRound (val * factor) : ℚ) / factor

/-- `avg` from `fetchers/vimeo.js`: drops `null`/`NaN` entries, then
averages, returning `0` on an empty list.  `none` models `null`. -/
def avg (arr : List (Option ℚ)) : ℚ :=
  let valid := arr.filterMap id
  if valid.length = 0 then 0 else valid.sum / valid.length

end Vimeo

namespace Kit

/-- `round` from `fetchers/kit.js` (default `decimals = 1`). -/
def round (val : ℚ) (decimals : ℕ) : ℚ :=
  let factor : ℚ := 10 ^ decimals
  (mathRound (val * factor) : ℚ) / factor

end Kit

/-- The rounding convention §4.1 of the spec asks for, written from the
spec's words: "standard round-half-away-from-zero on `value * 10^n` then
divided back".  Halfway cases move away from zero, so for negative
arguments the magnitude of the result grows. -/
def roundHalfAwayFromZero (val : ℚ) (decimals : ℕ) : ℚ :=
  let factor : ℚ := 10 ^ decimals
  let scaled := val * factor
  let ticks : ℤ := if scaled < 0 then -⌊-scaled + 1/2⌋ else ⌊scaled + 1/2⌋
  (ticks : ℚ) / factor

/-! ## Aggregator (`scripts/generate-report.js`, `main`, step 1)

`Promise.allSettled` delivers, for every fetcher, either its fulfilled
value or its rejection reason; `main` then builds the `data` object with
one slot per source. -/

/-- One of the seven data sources, in the order of the `Promise.allSettled`
array in `generate-report.js`. -/
inductive SourceName where
  | ga4 | gsc | youtube | kit | meta | unbounce | vimeo
deriving DecidableEq, Repr

/-- The key under which `main` stores a source's slot in the `data` object. -/
def SourceName.key : SourceName → String
  | .ga4 => "ga4"
  | .gsc => "gsc"
  | .youtube => "youtube"
  | .kit => "kit"
  | .meta => "meta"
  | .unbounce => "unbounce"
  | .vimeo => "vimeo"

/-- Outcome of one settled promise: fulfilled with the adapter's data, or
rejected with the error's message. -/
inductive SettledResult (α : Type) where
  | fulfilled (value : α)
  | rejected (message : String)
deriving DecidableEq

/-- One slot of the combined `data` object: either the adapter's snapshot
or the `{ error: message }` placeholder. -/
inductive Slot (α : Type) where
  | value (v : α)
  | error (message : String)
deriving DecidableEq

/-- `r.status === 'fulfilled' ? r.value : { error: r.reason?.message }`. -/
def SettledResult.toSlot {α : Type} : SettledResult α → Slot α
  | .fulfilled v => .value v
  | .rejected m => .error m

/-- The order of the keys in the `data` object literal of `main`. -/
def sourceOrder : List SourceName :=
  [.ga4, .gsc, .youtube, .kit, .meta, .unbounce, .vimeo]

/-- The combined-snapshot `data` object of `main`, as an association list
in object-literal order: one slot per source, fulfilled value or
`{ error }`. -/
def combineSnapshot {α : Type} (results : SourceName → SettledResult α) :
    List (String × Slot α) :=
  sourceOrder.map fun s => (s.key, (results s).toSlot)

/-! ## Narrative generator (`scripts/generate-report.js`, `main`, step 2) -/

/-- One chat message of the conversation sent to the text-generation API. -/
inductive Message where
  | user (content : String)
  | assistant (content : String)
deriving DecidableEq

/-- The external services `main` depends on in step 2: the message-creation
API call (request conversation ↦ response text, or a thrown error's
message) and `JSON.parse` (text ↦ parsed document, or a `SyntaxError`). -/
structure GenService (Doc : Type) where
  call : List Message → Except String String
  parse : String → Except Unit Doc

/-- JavaScript `String.prototype.trim` on the underlying character list. -/
def trimChars (cs : List Char) : List Char :=
  ((cs.dropWhile Char.isWhitespace).reverse.dropWhile Char.isWhitespace).reverse

/-- JavaScript `String.prototype.trim`. -/
def jsTrim (s : String) : String :=
  ⟨trimChars s.data⟩

/-- `rawResponse.replace(/^```json\s*/i, '')`: if the text starts with a
case-insensitive ```` ```json ```` fence, drop it and the whitespace that
follows. -/
def stripFenceOpen (cs : List Char) : List Char :=
  if (cs.take 7).map Char.toLower = "```json".data then
    (cs.drop 7).dropWhile Char.isWhitespace
  else
    cs

/-- `.replace(/\s*```$/, '')`: if the text ends with ```` ``` ````, drop it
and the whitespace just before it. -/
def stripFenceClose (cs : List Char) : List Char :=
  let r := cs.reverse
  if r.take 3 = "```".data then
    ((r.drop 3).dropWhile Char.isWhitespace).reverse
  else
    cs

/-- The `cleaned` value of `main`: strip an opening ```` ```json ```` fence,
strip a closing fence, then `trim`. -/
def cleanResponse (s : String) : String :=
  ⟨trimChars (stripFenceClose (stripFenceOpen s.data))⟩

/-- The literal correction message `main` appends when the first response
fails to parse. -/
def correctionMsg : String :=
  "Your response was not valid JSON. Return ONLY the JSON object with no markdown, no backticks, no commentary. Start your response with \x7b and end with \x7d."

/-- How a run can fail after the fetch step: a parse failure surviving the
retry, or any other thrown error (API failure) propagating uncaught. -/
inductive RunError where
  | parseFailed
  | thrown (message : String)
deriving DecidableEq

/-- Step 2 of `main`: first API call on the single-user-message
conversation; on a `SyntaxError` from parsing (after cleaning), exactly one
retry re-sending the original conversation plus the assistant's raw reply
and the correction message, parsing the retry's trimmed text; any thrown
API error propagates without retry.  Returns the outcome together with the
list of API requests issued. -/
def narrativeStep {Doc : Type} (svc : GenService Doc) (prompt : String) :
    Except RunError Doc × List (List Message) :=
  let firstReq : List Message := [.user prompt]
  match svc.call firstReq with
  | .error e => (.error (.thrown e), [firstReq])
  | .ok raw =>
    match svc.parse (cleanResponse raw) with
    | .ok doc => (.ok doc, [firstReq])
    | .error _ =>
      let retryReq : List Message := [.user prompt, .assistant raw, .user correctionMsg]
      match svc.call retryReq with
      | .error e => (.error (.thrown e), [firstReq, retryReq])
      | .ok retryText =>
        match svc.parse (jsTrim retryText) with
        | .ok doc => (.ok doc, [firstReq, retryReq])
        | .error _ => (.error .parseFailed, [firstReq, retryReq])

/-! ## Report writer (`scripts/generate-report.js`, `main`, steps 3–4) -/

/-- The parsed generator document, with the three fields `main` touches in
step 3 made explicit and everything else abstracted as `rest`.  `none`
models an absent/null field. -/
structure Insights (Rest Raw : Type) where
  weekOf : Option String
  generatedAt : Option String
  rawData : Option Raw
  rest : Rest
deriving DecidableEq

/-- Step 3 of `main`:
`insights.weekOf = insights.weekOf || today;`
`insights.generatedAt = now;  insights.rawData = data;`
(`||` defaults on absent, null and the empty string). -/
def enrich {Rest Raw : Type} (ins : Insights Rest Raw) (today now : String)
    (data : Raw) : Insights Rest Raw :=
  { ins with
    weekOf := some (match ins.weekOf with
      | some w => if w = "" then today else w
      | none => today)
    generatedAt := some now
    rawData := some data }

/-- The post-fetch portion of `main`: assemble the combined snapshot,
run the narrative step on the prompt built from it, and on success enrich
the parsed document into the persisted artifact.  `today` stands for
`new Date().toISOString().split('T')[0]` and `now` for
`new Date().toISOString()` at write time. -/
def mainRun {α Rest : Type} (results : SourceName → SettledResult α)
    (svc : GenService (Insights Rest (List (String × Slot α))))
    (promptOf : List (String × Slot α) → String) (today now : String) :
    Except RunError (Insights Rest (List (String × Slot α))) :=
  let data := combineSnapshot results
  match (narrativeStep svc (promptOf data)).1 with
  | .error e => .error e
  | .ok ins => .ok (enrich ins today now data)

/-- `main().catch(err => { ...; process.exit(1) })`: a rejected run exits
with status 1, a completed run with 0. -/
def exitCodeOf {α : Type} : Except RunError α → ℕ
  | .ok _ => 0
  | .error _ => 1

/-! ## Credential resolution (§ each fetcher, before its first vendor call)

Each fetcher reads its credentials from `process.env` and throws before
any vendor HTTP request when one is missing.  `Env` carries the variables
the fetchers read; `none` models an unset variable. -/

/-- The process environment as seen by the seven fetchers. -/
structure Env where
  GOOGLE_SERVICE_ACCOUNT : Option String
  GA4_PROPERTY_ID : Option String
  GSC_SITE_URL : Option String
  META_AD_ACCOUNT_ID : Option String
  META_ACCESS_TOKEN : Option String
  KIT_API_SECRET : Option String
  VIMEO_ACCESS_TOKEN : Option String
  UNBOUNCE_ACCESS_TOKEN : Option String
  UNBOUNCE_REFRESH_TOKEN : Option String
  UNBOUNCE_CLIENT_ID : Option String
  UNBOUNCE_CLIENT_SECRET : Option String
deriving DecidableEq

/-- `getGoogleAuth` from `ga4.js`/`gsc.js`/`youtube.js`:
`if (!raw) throw new Error('GOOGLE_SERVICE_ACCOUNT env var is missing')`,
otherwise the credentials are built from `raw` (the JSON parse of the
credential string is abstracted to the raw string itself). -/
def getGoogleAuth (env : Env) : Except String String :=
  if truthyStr env.GOOGLE_SERVICE_ACCOUNT then
    .ok (env.GOOGLE_SERVICE_ACCOUNT.getD "")
  else
    .error "GOOGLE_SERVICE_ACCOUNT env var is missing"

/-- The prefix of `fetchGA4Data` that runs before any Analytics API call:
check `GA4_PROPERTY_ID`, then construct the client via `getGoogleAuth`. -/
def fetchGA4Init (env : Env) : Except String (String × String) :=
  if truthyStr env.GA4_PROPERTY_ID then
    (getGoogleAuth env).map fun cred => (env.GA4_PROPERTY_ID.getD "", cred)
  else
    .error "GA4_PROPERTY_ID env var is missing"

/-- The prefix of `fetchGSCData` before any Search Console call:
check `GSC_SITE_URL`, then `getGoogleAuth`. -/
def fetchGSCInit (env : Env) : Except String (String × String) :=
  if truthyStr env.GSC_SITE_URL then
    (getGoogleAuth env).map fun cred => (env.GSC_SITE_URL.getD "", cred)
  else
    .error "GSC_SITE_URL env var is missing"

/-- The prefix of `fetchYouTubeData` before any API call: `getGoogleAuth`. -/
def fetchYouTubeInit (env : Env) : Except String String :=
  getGoogleAuth env

/-- `AD_ACCOUNT` from `meta.js`:
`if (!id) throw new Error('META_AD_ACCOUNT_ID env var is missing')`. -/
def metaAdAccount (env : Env) : Except String String :=
  if truthyStr env.META_AD_ACCOUNT_ID then
    .ok (env.META_AD_ACCOUNT_ID.getD "")
  else
    .error "META_AD_ACCOUNT_ID env var is missing"

/-- `ACCESS_TOKEN` from `meta.js`:
`if (!t) throw new Error('META_ACCESS_TOKEN env var is missing')`. -/
def metaAccessToken (env : Env) : Except String String :=
  if truthyStr env.META_ACCESS_TOKEN then
    .ok (env.META_ACCESS_TOKEN.getD "")
  else
    .error "META_ACCESS_TOKEN env var is missing"

/-- The prefix of `fetchMetaData` before any Graph API request:
`AD_ACCOUNT()` at entry, then `ACCESS_TOKEN()` inside `metaGet` while the
first request URL is built, still before `fetch`. -/
def fetchMetaInit (env : Env) : Except String (String × String) :=
  (metaAdAccount env).bind fun acct =>
    (metaAccessToken env).map fun tok => (acct, tok)

/-- `headers` from `kit.js`, evaluated inside `kitGet` before the first
request: `if (!secret) throw new Error('KIT_API_SECRET env var is missing')`. -/
def fetchKitInit (env : Env) : Except String String :=
  if truthyStr env.KIT_API_SECRET then
    .ok (env.KIT_API_SECRET.getD "")
  else
    .error "KIT_API_SECRET env var is missing"

/-- `headers` from `vimeo.js`, evaluated inside `vimeoGet` before the first
request: `if (!token) throw new Error('VIMEO_ACCESS_TOKEN env var is missing')`. -/
def fetchVimeoInit (env : Env) : Except String String :=
  if truthyStr env.VIMEO_ACCESS_TOKEN then
    .ok (env.VIMEO_ACCESS_TOKEN.getD "")
  else
    .error "VIMEO_ACCESS_TOKEN env var is missing"

/-- `getAccessToken` from `unbounce.js`: when the refresh-token triple is
configured, a token-refresh HTTP call is attempted first
(`refreshOutcome` models it: `some t` = HTTP 200 with `access_token t`,
`none` = non-ok response, falling back to the stored access token); then
`if (!token) throw new Error('UNBOUNCE_ACCESS_TOKEN env var is missing')`. -/
def unbounceGetAccessToken (env : Env) (refreshOutcome : Option String) :
    Except String String :=
  let stored := env.UNBOUNCE_ACCESS_TOKEN
  let token :=
    if truthyStr env.UNBOUNCE_REFRESH_TOKEN &&
       truthyStr env.UNBOUNCE_CLIENT_ID &&
       truthyStr env.UNBOUNCE_CLIENT_SECRET then
      match refreshOutcome with
      | some t => some t
      | none => stored
    else stored
  if truthyStr token then .ok (token.getD "") else
    .error "UNBOUNCE_ACCESS_TOKEN env var is missing"

/-! ## Vimeo per-video analytics (`fetchers/vimeo.js`) -/

/-- One row of a Vimeo analytics response; `none` models an absent field. -/
structure VimeoRow where
  plays : Option ℚ
  finishes : Option ℚ
  impressions : Option ℚ
  watch_time : Option ℚ
deriving DecidableEq

/-- The record `parseAnalytics` produces. -/
structure VimeoAnalytics where
  plays : ℚ
  finishes : ℚ
  impressions : ℚ
  watchMinutes : ℚ
  playRate : Option ℚ
  finishRate : Option ℚ
deriving DecidableEq

/-- JavaScript `x > 0` for a possibly-absent `x`: absent (`null` or
`undefined`) compares false. -/
def jsGtZero : Option ℚ → Bool
  | none => false
  | some x => decide (0 < x)

/-- `parseAnalytics` from `vimeo.js` (the `res.data?.[0] ?? res` row
selection is applied by the caller; this takes the row).  Divisions are
guarded: `playRate` only when `row.impressions > 0`, `finishRate` only
when `row.plays > 0`; absent operands inside the guarded arithmetic
coerce to `0` as in JS. -/
def parseAnalytics (row : VimeoRow) : VimeoAnalytics where
  plays := ((row.plays).orElse fun _ => row.impressions).getD 0
  finishes := (row.finishes).getD 0
  impressions := (row.impressions).getD 0
  watchMinutes := Vimeo.round ((row.watch_time).getD 0 / 60) 1
  playRate :=
    if jsGtZero row.impressions then
      some (Vimeo.round ((row.plays).getD 0 / (row.impressions).getD 0 * 100) 1)
    else none
  finishRate :=
    if jsGtZero row.plays then
      some (Vimeo.round ((row.finishes).getD 0 / (row.plays).getD 0 * 100) 1)
    else none

/-- A video listed by `/me/videos` after the first mapping in
`fetchVimeoData`. -/
structure VimeoVideo where
  id : String
  title : String
  duration : ℚ
  totalPlays : ℚ
deriving DecidableEq

/-- One element of `videosWithStats`: the enriched video, or the video
spread together with `error: err.message` when its stats requests failed.
(`Eng` is the parsed engagement heat-map, whose own fetch/parse is
abstracted: the inner `try` yields `none` when it is unavailable.) -/
inductive VimeoVideoResult (Eng : Type) where
  | enriched (video : VimeoVideo) (thisWeek lastWeek : VimeoAnalytics)
      (playsDelta finishRateDelta : Option ℚ) (engagement : Option Eng)
  | failed (video : VimeoVideo) (error : String)
deriving DecidableEq

/-- `v.error` is set exactly on the failure branch. -/
def VimeoVideoResult.hasError {Eng : Type} : VimeoVideoResult Eng → Bool
  | .enriched _ _ _ _ _ _ => false
  | .failed _ _ => true

/-- The `videosWithStats` step of `fetchVimeoData`: for the first 15
videos, fetch this-week and last-week analytics (`statsFetch`, `.error` =
the rejection's message) and the optional engagement data (`engFetch`);
a failed stats fetch yields the video with an inline `error` field
instead of rejecting. -/
def videosWithStats {Eng : Type} (videos : List VimeoVideo)
    (statsFetch : VimeoVideo → Except String (VimeoRow × VimeoRow))
    (engFetch : VimeoVideo → Option Eng) : List (VimeoVideoResult Eng) :=
  (videos.take 15).map fun video =>
    match statsFetch video with
    | .error e => .failed video e
    | .ok (twRow, lwRow) =>
      let tw := parseAnalytics twRow
      let lw := parseAnalytics lwRow
      .enriched video tw lw
        (Vimeo.pct (some tw.plays) (some lw.plays))
        (Vimeo.pct tw.finishRate lw.finishRate)
        (engFetch video)

/-- `validVideos = videosWithStats.filter(v => !v.error)`. -/
def validVideos {Eng : Type} (l : List (VimeoVideoResult Eng)) :
    List (VimeoVideoResult Eng) :=
  l.filter fun v => !v.hasError

/-- `errorVideos = videosWithStats.filter(v => v.error)`. -/
def errorVideos {Eng : Type} (l : List (VimeoVideoResult Eng)) :
    List (VimeoVideoResult Eng) :=
  l.filter fun v => v.hasError

/-- `v.thisWeek?.finishRate` as JS sees it: `undefined` on the failure
branch (no `thisWeek`), else the possibly-null rate. -/
def VimeoVideoResult.twFinishRate {Eng : Type} : VimeoVideoResult Eng → Option ℚ
  | .enriched _ tw _ _ _ _ => tw.finishRate
  | .failed _ _ => none

/-- `avgFinishRate = avg(validVideos.map(v => v.thisWeek?.finishRate).filter(Boolean))`:
`filter(Boolean)` drops null/undefined and `0` entries before `avg`. -/
def avgFinishRate {Eng : Type} (valid : List (VimeoVideoResult Eng)) : ℚ :=
  Vimeo.avg ((valid.map VimeoVideoResult.twFinishRate).filter truthyQ)

/-- The `lowFinishRate` predicate of `fetchVimeoData`:
`v.thisWeek?.plays > 10 && v.thisWeek?.finishRate < avgFinishRate * 0.7`.
On the failure branch both optional chains are `undefined`, so both
comparisons are false; a `null` finish rate coerces to `0` in `<`. -/
def lowFinishFilter {Eng : Type} (avgFR : ℚ) : VimeoVideoResult Eng → Bool
  | .enriched _ tw _ _ _ _ =>
      decide (10 < tw.plays) && decide (tw.finishRate.getD 0 < avgFR * 0.7)
  | .failed _ _ => false

/-- `lowFinishRate = validVideos.filter(...)` (returned as
`lowFinishRateVideos`). -/
def lowFinishRateVideos {Eng : Type} (valid : List (VimeoVideoResult Eng)) :
    List (VimeoVideoResult Eng) :=
  valid.filter (lowFinishFilter (avgFinishRate valid))

/-- The `errors` field of the Vimeo snapshot:
`errorVideos.length > 0 ? errorVideos.map(v => ({title, error})) : undefined`. -/
def vimeoErrorsField {Eng : Type} (l : List (VimeoVideoResult Eng)) :
    Option (List (String × String)) :=
  let ev := errorVideos l
  if ev.length > 0 then
    some (ev.map fun v => match v with
      | .enriched video _ _ _ _ _ => (video.title, "")
      | .failed video e => (video.title, e))
  else none

/-! ## Unbounce per-page stats (`fetchers/unbounce.js`) -/

/-- A page from `GET /accounts/:id/pages`. -/
structure UnbouncePageMeta where
  id : String
  name : String
  url : String
  state : String
deriving DecidableEq

/-- One raw `page_group_stats` row; `none` models an absent field. -/
structure UnbounceStatsRow where
  visitors : Option ℚ
  conversions : Option ℚ
  conversion_rate : Option ℚ
deriving DecidableEq

/-- The record `parsePageStats` produces. -/
structure PageStats where
  visitors : ℚ
  conversions : ℚ
  conversionRate : ℚ
deriving DecidableEq

/-- `parsePageStats` from `unbounce.js` (the `res.page_group_stats?.[0] ?? res`
row selection is applied by the caller): defaults to `0` and reports the
conversion rate as a percentage rounded to one decimal. -/
def parsePageStats (row : UnbounceStatsRow) : PageStats where
  visitors := row.visitors.getD 0
  conversions := row.conversions.getD 0
  conversionRate := Unbounce.round (row.conversion_rate.getD 0 * 100) 1

/-- One element of `pageStats`: the page with its two weekly stats and
deltas, or — when either stats request failed — the page with the fixed
inline `error: 'Stats unavailable'` (the `catch` discards the cause). -/
inductive UnbouncePageResult where
  | stats (page : UnbouncePageMeta) (thisWeek lastWeek : PageStats)
      (conversionDelta visitorsDelta : Option ℚ)
  | failed (page : UnbouncePageMeta) (error : String)
deriving DecidableEq

/-- `p.error` is set exactly on the failure branch. -/
def UnbouncePageResult.hasError : UnbouncePageResult → Bool
  | .stats _ _ _ _ _ => false
  | .failed _ _ => true

/-- The page the result wraps. -/
def UnbouncePageResult.page : UnbouncePageResult → UnbouncePageMeta
  | .stats p _ _ _ _ => p
  | .failed p _ => p

/-- `p.thisWeek?.visitors`: `undefined` on the failure branch. -/
def UnbouncePageResult.twVisitors : UnbouncePageResult → Option ℚ
  | .stats _ tw _ _ _ => some tw.visitors
  | .failed _ _ => none

/-- `p.thisWeek?.conversionRate`: `undefined` on the failure branch. -/
def UnbouncePageResult.twConversionRate : UnbouncePageResult → Option ℚ
  | .stats _ tw _ _ _ => some tw.conversionRate
  | .failed _ _ => none

/-- The `pageStats` step of `fetchUnbounceData`: for every page, fetch
this-week and last-week `page_group_stats`; any failure is captured and
the page returned with `error: 'Stats unavailable'` instead of rejecting. -/
def pageStats (pages : List UnbouncePageMeta)
    (fetch : UnbouncePageMeta → Except String (UnbounceStatsRow × UnbounceStatsRow)) :
    List UnbouncePageResult :=
  pages.map fun page =>
    match fetch page with
    | .error _ => .failed page "Stats unavailable"
    | .ok (twRow, lwRow) =>
      let tw := parsePageStats twRow
      let lw := parsePageStats lwRow
      .stats page tw lw
        (Unbounce.pct (some tw.conversionRate) (some lw.conversionRate))
        (Unbounce.pct (some tw.visitors) (some lw.visitors))

/-- `publishedPages = pageStats.filter(p => p.state === 'published' && !p.error)`. -/
def publishedPages (l : List UnbouncePageResult) : List UnbouncePageResult :=
  l.filter fun p => decide (p.page.state = "published") && !p.hasError

/-- `avgConvRate = avg(publishedPages.map(p => p.thisWeek?.conversionRate).filter(Boolean))`. -/
def avgConvRate (published : List UnbouncePageResult) : ℚ :=
  Unbounce.avg ((published.map UnbouncePageResult.twConversionRate).filter truthyQ
    |>.map (·.getD 0))

/-- The `problemPages` predicate of `fetchUnbounceData`:
`p.thisWeek?.visitors > 50 && p.thisWeek?.conversionRate < avgConvRate * 0.5`
(`undefined` compares false on both sides). -/
def problemFilter (avgCR : ℚ) (p : UnbouncePageResult) : Bool :=
  (match p.twVisitors with
    | none => false
    | some v => decide (50 < v)) &&
  (match p.twConversionRate with
    | none => false
    | some r => decide (r < avgCR * 0.5))

/-- `problemPages = publishedPages.filter(...)`. -/
def problemPages (published : List UnbouncePageResult) : List UnbouncePageResult :=
  published.filter (problemFilter (avgConvRate published))

/-! ## Kit per-broadcast stats (`fetchers/kit.js`) -/

/-- A broadcast from `GET /broadcasts`; `none` models an absent field. -/
structure KitBroadcast where
  id : String
  subject : Option String
  email_template_name : Option String
  published_at : Option String
  send_at : Option String
deriving DecidableEq

/-- The stats object of `GET /broadcasts/:id/stats`. -/
structure KitStats where
  recipients : Option ℚ
  open_rate : Option ℚ
  click_rate : Option ℚ
  unsubscribe_rate : Option ℚ
  opens : Option ℚ
  clicks : Option ℚ
  unsubscribes : Option ℚ
deriving DecidableEq

/-- One element of `broadcastsWithStats`: the broadcast with its stats, or
— when the stats request failed — only `{id, subject, publishedAt,
statsAvailable: false}`; the failure branch records no error information. -/
inductive KitBroadcastResult where
  | withStats (id : String) (subject : String) (publishedAt : Option String)
      (recipientCount openRate clickRate unsubscribeRate opens clicks unsubscribes : ℚ)
  | pending (id : String) (subject : String) (publishedAt : Option String)
deriving DecidableEq

/-- `b.statsAvailable !== false`. -/
def KitBroadcastResult.statsAvailable : KitBroadcastResult → Bool
  | .withStats _ _ _ _ _ _ _ _ _ _ => true
  | .pending _ _ _ => false

/-- The `broadcastsWithStats` step of `fetchKitData`: for the first 8
broadcasts, fetch `/broadcasts/:id/stats`; a failure is caught and the
broadcast returned with `statsAvailable: false` instead of rejecting. -/
def broadcastsWithStats (broadcasts : List KitBroadcast)
    (fetch : KitBroadcast → Except String KitStats) : List KitBroadcastResult :=
  (broadcasts.take 8).map fun b =>
    match fetch b with
    | .ok stats =>
      .withStats b.id
        ((b.email_template_name.orElse fun _ => b.subject).getD "Untitled")
        (b.published_at.orElse fun _ => b.send_at)
        (stats.recipients.getD 0)
        (Kit.round (stats.open_rate.getD 0) 1)
        (Kit.round (stats.click_rate.getD 0) 1)
        (Kit.round (stats.unsubscribe_rate.getD 0) 2)
        (stats.opens.getD 0)
        (stats.clicks.getD 0)
        (stats.unsubscribes.getD 0)
    | .error _ =>
      .pending b.id (b.subject.getD "Untitled")
        (b.published_at.orElse fun _ => b.send_at)

/-- `completedBroadcasts = broadcastsWithStats.filter(b => b.statsAvailable !== false)`. -/
def completedBroadcasts (l : List KitBroadcastResult) : List KitBroadcastResult :=
  l.filter KitBroadcastResult.statsAvailable

/-- `recentBroadcasts = completedBroadcasts.slice(0, 4)`. -/
def recentBroadcasts (l : List KitBroadcastResult) : List KitBroadcastResult :=
  (completedBroadcasts l).take 4

/-! ## Meta campaign flagging (`fetchers/meta.js`) -/

/-- A parsed campaign row (`parseCampaigns ∘ parseInsight`); only the
fields the `underperforming` filter reads are kept explicit.
`costPerLead` is `null` when no cost-per-lead action was reported. -/
structure MetaCampaign where
  campaignName : String
  spend : ℚ
  ctr : ℚ
  costPerLead : Option ℚ
  leads : ℚ
deriving DecidableEq

/-- The `underperforming` predicate of `fetchMetaData`:
`(avgCPL && c.costPerLead && c.costPerLead > avgCPL * 1.5) || (c.ctr < 0.5 && c.spend > 50)`
— a disjunction: high CPL relative to the account average (no spend
floor), or low absolute CTR with a spend floor. -/
def underperformingFilter (avgCPL : Option ℚ) (c : MetaCampaign) : Bool :=
  (truthyQ avgCPL && truthyQ c.costPerLead &&
    decide (avgCPL.getD 0 * 1.5 < c.costPerLead.getD 0)) ||
  (decide (c.ctr < 0.5) && decide (50 < c.spend))

/-- `underperforming = campaigns.filter(...)` where `avgCPL` is the
account-level `thisWeekSummary.costPerLead`. -/
def underperforming (campaigns : List MetaCampaign) (avgCPL : Option ℚ) :
    List MetaCampaign :=
  campaigns.filter (underperformingFilter avgCPL)

/-! ## Theorems -/

theorem mathRound_eq (x : ℚ) : mathRound x = ⌊x + 1/2⌋ := by
  rw [mathRound, Rat.floor_def', Rat.floor_def]

theorem floor_one_half : ⌊(1 / 2 : ℚ)⌋ = 0 := by
  rw [Int.floor_eq_iff]
  norm_num

theorem mathRound_intCast (z : ℤ) : mathRound ((z : ℚ)) = z := by
  rw [mathRound_eq, Int.floor_int_add, floor_one_half, add_zero]

/-- **C2.** Every adapter's `pct` helper: for `previous > 0` it returns
`Math.round(((current - previous) / previous) * 1000) / 10`; for
`previous` equal to `0` or null/undefined it returns `null` (so the
division is only reached under the truthiness guard and the helper is a
total function); the five copies in `ga4.js`, `youtube.js`, `meta.js`,
`unbounce.js`, `vimeo.js` are extensionally equal; and
`pct(120, 100) = 20`, `pct(80, 100) = -20`. -/
theorem claim_C2_pct_contract :
    ∀ (current : Option ℚ) (p : ℚ),
      (0 < p → GA4.pct current (some p) =
        some ((mathRound ((current.getD 0 - p) / p * 1000) : ℚ) / 10)) ∧
      GA4.pct current (some 0) = none ∧
      GA4.pct current none = none ∧
      (∀ (c2 p2 : Option ℚ),
        GA4.pct c2 p2 = YouTube.pct c2 p2 ∧
        GA4.pct c2 p2 = MetaAds.pct c2 p2 ∧
        GA4.pct c2 p2 = Unbounce.pct c2 p2 ∧
        GA4.pct c2 p2 = Vimeo.pct c2 p2) ∧
      GA4.pct (some 120) (some 100) = some 20 ∧
      GA4.pct (some 80) (some 100) = some (-20) := by
  intro current p
  refine ⟨?_, ?_, rfl, fun c2 p2 => ⟨rfl, rfl, rfl, rfl⟩,
    by norm_num [GA4.pct, truthyQ, mathRound_eq],
    by norm_num [GA4.pct, truthyQ, mathRound_eq]⟩
  · intro hp
    simp [GA4.pct, truthyQ, hp.ne']
  · simp [GA4.pct, truthyQ]

theorem claim_C2_pct_contract_witness :
    GA4.pct (some 120) (some 100) =
      some ((mathRound ((120 - 100) / 100 * 1000 : ℚ) : ℚ) / 10) ∧
    GA4.pct (some 120) (some 100) = some 20 :=
  ⟨by
    have h := (claim_C2_pct_contract (some 120) 100).1 (by norm_num)
    simpa using h,
   (claim_C2_pct_contract (some 120) 100).2.2.2.2.1⟩

/-- **C5 counterexample.** The shared `round` helper does not round half
away from zero: at `v = -1/4`, `n = 1` the scaled value is `-2.5`,
`Math.round` gives `-2` (ties toward `+∞`), so the helper returns `-0.2`,
while round-half-away-from-zero returns `-0.3`. -/
theorem claim_C5_counterexample :
    Unbounce.round (-(1 / 4)) 1 = -(1 / 5) ∧
    roundHalfAwayFromZero (-(1 / 4)) 1 = -(3 / 10) ∧
    Unbounce.round (-(1 / 4)) 1 ≠ roundHalfAwayFromZero (-(1 / 4)) 1 := by
  refine ⟨?_, ?_, ?_⟩ <;>
    norm_num [Unbounce.round, roundHalfAwayFromZero, mathRound_eq, Int.floor_eq_iff]

/-- **C5 (amended).** For every value `v` and decimal count `n`, the shared
rounding helper equals `Math.round` — round-half-up, ties toward positive
infinity — applied to `v * 10^n`, divided back: the result is an integer
multiple of `10^(-n)` lying in the half-open interval
`(v - 1/(2·10^n), v + 1/(2·10^n)]` (so a tie rounds toward `+∞`, e.g.
`v * 10^n = -2.5` gives `-2`, toward zero, not away from it); and the
`round` copies in `meta.js`, `unbounce.js`, `vimeo.js`, `kit.js` all use
this same convention. -/
theorem claim_C5_round_convention :
    ∀ (v : ℚ) (n : ℕ),
      (∃ z : ℤ, Unbounce.round v n = (z : ℚ) / 10 ^ n) ∧
      v - 1 / (2 * 10 ^ n) < Unbounce.round v n ∧
      Unbounce.round v n ≤ v + 1 / (2 * 10 ^ n) ∧
      Unbounce.round v n = MetaAds.round v n ∧
      Unbounce.round v n = Vimeo.round v n ∧
      Unbounce.round v n = Kit.round v n := by
  intro v n
  have hf : (0 : ℚ) < 10 ^ n := by positivity
  have hr : Unbounce.round v n = (mathRound (v * 10 ^ n) : ℚ) / 10 ^ n := rfl
  have hle : (mathRound (v * 10 ^ n) : ℚ) ≤ v * 10 ^ n + 1 / 2 := by
    rw [mathRound_eq]; exact Int.floor_le _
  have hlt : v * 10 ^ n + 1 / 2 - 1 < (mathRound (v * 10 ^ n) : ℚ) := by
    rw [mathRound_eq]; exact Int.sub_one_lt_floor _
  refine ⟨⟨mathRound (v * 10 ^ n), hr⟩, ?_, ?_, rfl, rfl, rfl⟩
  · rw [hr]
    rw [show v - 1 / (2 * 10 ^ n) = (v * 10 ^ n + 1 / 2 - 1) / 10 ^ n by
      field_simp; ring]
    exact (div_lt_div_iff_of_pos_right hf).mpr hlt
  · rw [hr]
    rw [show v + 1 / (2 * 10 ^ n) = (v * 10 ^ n + 1 / 2) / 10 ^ n by
      field_simp; ring]
    exact (div_le_div_iff_of_pos_right hf).mpr hle

/-- **C9.** The rounding helper is idempotent: applying it twice at the
same decimal count returns the once-rounded value unchanged. -/
theorem claim_C9_round_idempotent :
    ∀ (x : ℚ) (n : ℕ), Unbounce.round (Unbounce.round x n) n = Unbounce.round x n := by
  intro x n
  have hf : ((10 : ℚ) ^ n) ≠ 0 := by positivity
  show (mathRound ((mathRound (x * 10 ^ n) : ℚ) / 10 ^ n * 10 ^ n) : ℚ) / 10 ^ n =
    (mathRound (x * 10 ^ n) : ℚ) / 10 ^ n
  rw [div_mul_cancel₀ _ hf, mathRound_intCast]

/-- **C10.** `parseAnalytics` guards both of its divisions: `playRate` is
`null` when `impressions` is missing or non-positive and otherwise equals
`round((plays / impressions) * 100, 1)`; `finishRate` is `null` when
`plays` is missing or non-positive and otherwise equals
`round((finishes / plays) * 100, 1)` (a missing numerator coerces to 0,
as in JS); the function is total. -/
theorem claim_C10_parseAnalytics_guards :
    ∀ (row : VimeoRow),
      (row.impressions = none → (parseAnalytics row).playRate = none) ∧
      (∀ i : ℚ, row.impressions = some i → i ≤ 0 →
        (parseAnalytics row).playRate = none) ∧
      (∀ i : ℚ, row.impressions = some i → 0 < i →
        (parseAnalytics row).playRate = some (Vimeo.round (row.plays.getD 0 / i * 100) 1)) ∧
      (row.plays = none → (parseAnalytics row).finishRate = none) ∧
      (∀ pl : ℚ, row.plays = some pl → pl ≤ 0 →
        (parseAnalytics row).finishRate = none) ∧
      (∀ pl : ℚ, row.plays = some pl → 0 < pl →
        (parseAnalytics row).finishRate = some (Vimeo.round (row.finishes.getD 0 / pl * 100) 1)) := by
  intro row
  refine ⟨?_, ?_, ?_, ?_, ?_, ?_⟩
  · intro h; simp [parseAnalytics, jsGtZero, h]
  · intro i hi hle; simp [parseAnalytics, jsGtZero, hi, not_lt.mpr hle]
  · intro i hi hpos; simp [parseAnalytics, jsGtZero, hi, hpos]
  · intro h; simp [parseAnalytics, jsGtZero, h]
  · intro pl hp hle; simp [parseAnalytics, jsGtZero, hp, not_lt.mpr hle]
  · intro pl hp hpos; simp [parseAnalytics, jsGtZero, hp, hpos]

/-- **C4 counterexample.**  Meta's `underperforming` filter is a
disjunction, not the claimed two-part conjunction: with an account average
CPL of 10, a campaign with `costPerLead = 100` is flagged through the CPL
disjunct even though its volume is at or below the floor
(`spend = 10 ≤ 50`) and its rate is at or above the threshold
(`ctr = 2 ≥ 0.5`, and `2` is also the entire cohort's average, so the
rate is not below any stated fraction of it). -/
theorem claim_C4_counterexample :
    underperforming [⟨"Campaign A", 10, 2, some 100, 1⟩] (some 10) =
      [⟨"Campaign A", 10, 2, some 100, 1⟩] ∧
    ¬ (50 : ℚ) < 10 ∧ ¬ (2 : ℚ) < 0.5 ∧ ¬ (2 : ℚ) < 0.7 * 2 := by
  refine ⟨?_, by norm_num, by norm_num, by norm_num⟩
  simp only [underperforming, underperformingFilter, truthyQ, List.filter]
  norm_num

/-- **C4 (amended).**  Unbounce's `problemPages` and Vimeo's
`lowFinishRateVideos` flag exactly by the two-part conjunction — rate
below `0.5×`/`0.7×` of the cohort average AND volume above the floor
(`visitors > 50` / `plays > 10`) — so an item failing either part is not
flagged.  Meta's `underperforming`, however, flags by a disjunction:
`costPerLead > 1.5 ×` account-average CPL (both truthy, with no volume
floor at all) OR (`ctr < 0.5` absolute AND `spend > 50`). -/
theorem claim_C4_flagging_rules :
    (∀ (published : List UnbouncePageResult) (p : UnbouncePageResult),
      p ∈ problemPages published ↔
        p ∈ published ∧
        (∃ v, p.twVisitors = some v ∧ 50 < v) ∧
        (∃ rate, p.twConversionRate = some rate ∧
          rate < avgConvRate published * 0.5)) ∧
    (∀ (Eng : Type) (valid : List (VimeoVideoResult Eng)) (v : VimeoVideoResult Eng),
      v ∈ lowFinishRateVideos valid ↔
        v ∈ valid ∧
        ∃ video tw lw pd fd eng, v = .enriched video tw lw pd fd eng ∧
          10 < tw.plays ∧ tw.finishRate.getD 0 < avgFinishRate valid * 0.7) ∧
    (∀ (campaigns : List MetaCampaign) (avgCPL : Option ℚ) (c : MetaCampaign),
      c ∈ underperforming campaigns avgCPL ↔
        c ∈ campaigns ∧
        ((∃ a, avgCPL = some a ∧ a ≠ 0 ∧
            ∃ cpl, c.costPerLead = some cpl ∧ cpl ≠ 0 ∧ a * 1.5 < cpl) ∨
         (c.ctr < 0.5 ∧ 50 < c.spend))) := by
  refine ⟨?_, ?_, ?_⟩
  · intro published p
    rw [problemPages, List.mem_filter]
    refine and_congr_right fun _ => ?_
    cases p with
    | stats page tw lw cd vd =>
      simp [problemFilter, UnbouncePageResult.twVisitors,
        UnbouncePageResult.twConversionRate]
    | failed page e =>
      simp [problemFilter, UnbouncePageResult.twVisitors,
        UnbouncePageResult.twConversionRate]
  · intro Eng valid v
    rw [lowFinishRateVideos, List.mem_filter]
    refine and_congr_right fun _ => ?_
    cases v with
    | enriched video tw lw pd fd eng =>
      simp only [lowFinishFilter, Bool.and_eq_true, decide_eq_true_eq,
        VimeoVideoResult.enriched.injEq]
      constructor
      · intro h
        exact ⟨video, tw, lw, pd, fd, eng, ⟨rfl, rfl, rfl, rfl, rfl, rfl⟩, h⟩
      · rintro ⟨v1, t1, l1, p1, f1, e1, ⟨rfl, rfl, rfl, rfl, rfl, rfl⟩, h⟩
        exact h
    | failed video e =>
      simp [lowFinishFilter]
  · intro campaigns avgCPL c
    rw [underperforming, List.mem_filter]
    refine and_congr_right fun _ => ?_
    rw [underperformingFilter]
    cases havg : avgCPL with
    | none => simp [truthyQ]
    | some a =>
      cases hcpl : c.costPerLead with
      | none => simp [truthyQ, hcpl]
      | some cpl => simp [truthyQ, hcpl, and_assoc]

theorem combineSnapshot_lookup {α : Type} (r : SourceName → SettledResult α)
    (s : SourceName) :
    (combineSnapshot r).lookup s.key = some ((r s).toSlot) := by
  cases s <;> rfl

/-- **C1.**  Whatever subset of the 7 adapters fails, the `data` object
`main` assembles always has exactly the 7 keys
`ga4, gsc, youtube, kit, meta, unbounce, vimeo` in that order; each key
holds the adapter's fulfilled value, or `{error: message}` with the
rejection message when it failed; and the run proceeds to report
generation — the post-fetch pipeline's success is decided by the
narrative step alone, never by adapter failures. -/
theorem claim_C1_aggregator_invariant :
    ∀ {α : Type} (r : SourceName → SettledResult α),
      (combineSnapshot r).map Prod.fst =
        ["ga4", "gsc", "youtube", "kit", "meta", "unbounce", "vimeo"] ∧
      (combineSnapshot r).length = 7 ∧
      (∀ s : SourceName, (combineSnapshot r).lookup s.key = some ((r s).toSlot)) ∧
      (∀ s v, r s = .fulfilled v →
        (combineSnapshot r).lookup s.key = some (.value v)) ∧
      (∀ s m, r s = .rejected m →
        (combineSnapshot r).lookup s.key = some (.error m)) ∧
      (∀ (Rest : Type) (svc : GenService (Insights Rest (List (String × Slot α))))
        (promptOf : List (String × Slot α) → String) (today now : String),
        (mainRun r svc promptOf today now).isOk =
          (narrativeStep svc (promptOf (combineSnapshot r))).1.isOk) := by
  intro α r
  refine ⟨rfl, rfl, combineSnapshot_lookup r, ?_, ?_, ?_⟩
  · intro s v h
    rw [combineSnapshot_lookup r s, h]
    rfl
  · intro s m h
    rw [combineSnapshot_lookup r s, h]
    rfl
  · intro Rest svc promptOf today now
    rw [mainRun]
    cases h : (narrativeStep svc (promptOf (combineSnapshot r))).1 <;>
      simp [h, Except.isOk, Except.toBool]

theorem claim_C1_aggregator_invariant_witness :
    (combineSnapshot (fun s : SourceName => match s with
      | .kit => SettledResult.rejected "Kit API error 500 on /broadcasts: boom"
      | _ => SettledResult.fulfilled 1)).lookup "kit" =
      some (Slot.error "Kit API error 500 on /broadcasts: boom") ∧
    (combineSnapshot (fun s : SourceName => match s with
      | .kit => SettledResult.rejected "Kit API error 500 on /broadcasts: boom"
      | _ => SettledResult.fulfilled 1)).lookup "ga4" = some (Slot.value 1) :=
  ⟨(claim_C1_aggregator_invariant _).2.2.2.2.1 .kit _ rfl,
   (claim_C1_aggregator_invariant _).2.2.2.1 .ga4 1 rfl⟩

/-- **C6.**  Each adapter's credential-resolution prefix — the code that
runs before any vendor HTTP request — rejects with an error whose message
names the missing environment variable when that variable is absent
(GA4: `GA4_PROPERTY_ID`, `GOOGLE_SERVICE_ACCOUNT`; Meta:
`META_AD_ACCOUNT_ID`, `META_ACCESS_TOKEN`; Kit: `KIT_API_SECRET`;
Vimeo: `VIMEO_ACCESS_TOKEN`; YouTube/GSC: `GOOGLE_SERVICE_ACCOUNT`,
`GSC_SITE_URL`; Unbounce, with no refresh flow configured:
`UNBOUNCE_ACCESS_TOKEN`).  And the failure stays in that adapter's slot:
a source's slot in the combined snapshot depends only on that source's
own settled result. -/
theorem claim_C6_config_errors :
    ∀ (env : Env),
      (env.GA4_PROPERTY_ID = none →
        fetchGA4Init env = .error ("GA4_PROPERTY_ID" ++ " env var is missing")) ∧
      (truthyStr env.GA4_PROPERTY_ID = true → env.GOOGLE_SERVICE_ACCOUNT = none →
        fetchGA4Init env = .error ("GOOGLE_SERVICE_ACCOUNT" ++ " env var is missing")) ∧
      (env.META_AD_ACCOUNT_ID = none →
        fetchMetaInit env = .error ("META_AD_ACCOUNT_ID" ++ " env var is missing")) ∧
      (truthyStr env.META_AD_ACCOUNT_ID = true → env.META_ACCESS_TOKEN = none →
        fetchMetaInit env = .error ("META_ACCESS_TOKEN" ++ " env var is missing")) ∧
      (env.KIT_API_SECRET = none →
        fetchKitInit env = .error ("KIT_API_SECRET" ++ " env var is missing")) ∧
      (env.VIMEO_ACCESS_TOKEN = none →
        fetchVimeoInit env = .error ("VIMEO_ACCESS_TOKEN" ++ " env var is missing")) ∧
      (env.GOOGLE_SERVICE_ACCOUNT = none →
        fetchYouTubeInit env = .error ("GOOGLE_SERVICE_ACCOUNT" ++ " env var is missing")) ∧
      (env.GSC_SITE_URL = none → truthyStr env.GOOGLE_SERVICE_ACCOUNT = true →
        fetchGSCInit env = .error ("GSC_SITE_URL" ++ " env var is missing")) ∧
      (env.UNBOUNCE_REFRESH_TOKEN = none → env.UNBOUNCE_ACCESS_TOKEN = none →
        ∀ refreshOutcome, unbounceGetAccessToken env refreshOutcome =
          .error ("UNBOUNCE_ACCESS_TOKEN" ++ " env var is missing")) ∧
      (∀ (α : Type) (r r2 : SourceName → SettledResult α) (t : SourceName),
        r t = r2 t →
        (combineSnapshot r).lookup t.key = (combineSnapshot r2).lookup t.key) := by
  intro env
  have tnone : truthyStr none = false := rfl
  refine ⟨?_, ?_, ?_, ?_, ?_, ?_, ?_, ?_, ?_, ?_⟩
  · intro h; simp [fetchGA4Init, truthyStr, h]
  · intro h1 h2
    simp [fetchGA4Init, getGoogleAuth, h1, h2, tnone, Except.map]
  · intro h
    simp [fetchMetaInit, metaAdAccount, truthyStr, h, Except.bind]
  · intro h1 h2
    simp [fetchMetaInit, metaAdAccount, metaAccessToken, h1, h2, tnone,
      Except.bind, Except.map]
  · intro h; simp [fetchKitInit, truthyStr, h]
  · intro h; simp [fetchVimeoInit, truthyStr, h]
  · intro h; simp [fetchYouTubeInit, getGoogleAuth, truthyStr, h]
  · intro h1 h2; simp [fetchGSCInit, truthyStr, h1, h2]
  · intro h1 h2 refreshOutcome
    simp [unbounceGetAccessToken, truthyStr, h1, h2]
  · intro α r r2 t h
    rw [combineSnapshot_lookup, combineSnapshot_lookup, h]

theorem claim_C6_config_errors_witness :
    fetchGA4Init ⟨none, none, none, none, none, none, none, none, none, none, none⟩ =
      .error ("GA4_PROPERTY_ID" ++ " env var is missing") ∧
    fetchMetaInit ⟨none, none, none, none, none, none, none, none, none, none, none⟩ =
      .error ("META_AD_ACCOUNT_ID" ++ " env var is missing") ∧
    fetchMetaInit ⟨none, none, none, some "act_123", none, none, none, none, none, none, none⟩ =
      .error ("META_ACCESS_TOKEN" ++ " env var is missing") ∧
    unbounceGetAccessToken ⟨none, none, none, none, none, none, none, none, none, none, none⟩ none =
      .error ("UNBOUNCE_ACCESS_TOKEN" ++ " env var is missing") :=
  ⟨(claim_C6_config_errors _).1 rfl,
   (claim_C6_config_errors _).2.2.1 rfl,
   (claim_C6_config_errors _).2.2.2.1 rfl rfl,
   (claim_C6_config_errors _).2.2.2.2.2.2.2.2.1 rfl rfl none⟩

/-- **C8.**  Every run that reaches the write step persists an artifact
whose `generatedAt` is the write-time timestamp, whose `weekOf` is the
generator-supplied value when that is present and non-empty and the run
date otherwise, whose `rawData` is the combined snapshot of the 7
adapters, and whose remaining fields are the generator document's,
unchanged. -/
theorem claim_C8_artifact_fields :
    ∀ {α Rest : Type} (r : SourceName → SettledResult α)
      (svc : GenService (Insights Rest (List (String × Slot α))))
      (promptOf : List (String × Slot α) → String) (today now : String)
      (ins : Insights Rest (List (String × Slot α))),
      (narrativeStep svc (promptOf (combineSnapshot r))).1 = .ok ins →
      mainRun r svc promptOf today now =
        .ok (enrich ins today now (combineSnapshot r)) ∧
      (enrich ins today now (combineSnapshot r)).generatedAt = some now ∧
      (∀ w, ins.weekOf = some w → w ≠ "" →
        (enrich ins today now (combineSnapshot r)).weekOf = some w) ∧
      (ins.weekOf = none ∨ ins.weekOf = some "" →
        (enrich ins today now (combineSnapshot r)).weekOf = some today) ∧
      (enrich ins today now (combineSnapshot r)).rawData =
        some (combineSnapshot r) ∧
      (enrich ins today now (combineSnapshot r)).rest = ins.rest := by
  intro α Rest r svc promptOf today now ins h
  refine ⟨?_, rfl, ?_, ?_, rfl, rfl⟩
  · rw [mainRun, h]
  · intro w hw hne
    simp [enrich, hw, hne]
  · intro hcase
    cases hcase with
    | inl h0 => simp [enrich, h0]
    | inr h0 => simp [enrich, h0]

theorem claim_C8_artifact_fields_witness :
    mainRun (fun _ : SourceName => SettledResult.fulfilled (0 : ℕ))
        (⟨fun _ => .ok "x", fun _ => .ok ⟨some "2026-01-05", none, none, ()⟩⟩ :
          GenService (Insights Unit (List (String × Slot ℕ))))
        (fun _ => "p") "2026-02-02" "2026-02-02T08:00:00.000Z" =
      .ok (enrich ⟨some "2026-01-05", none, none, ()⟩ "2026-02-02"
        "2026-02-02T08:00:00.000Z"
        (combineSnapshot fun _ : SourceName => SettledResult.fulfilled (0 : ℕ))) ∧
    (enrich (⟨some "2026-01-05", none, none, ()⟩ : Insights Unit (List (String × Slot ℕ)))
        "2026-02-02" "2026-02-02T08:00:00.000Z"
        (combineSnapshot fun _ : SourceName => SettledResult.fulfilled (0 : ℕ))).weekOf =
      some "2026-01-05" :=
  ⟨(claim_C8_artifact_fields (fun _ : SourceName => SettledResult.fulfilled (0 : ℕ))
      (⟨fun _ => .ok "x", fun _ => .ok ⟨some "2026-01-05", none, none, ()⟩⟩ :
        GenService (Insights Unit (List (String × Slot ℕ))))
      (fun _ => "p") "2026-02-02" "2026-02-02T08:00:00.000Z"
      ⟨some "2026-01-05", none, none, ()⟩ rfl).1,
   (claim_C8_artifact_fields (fun _ : SourceName => SettledResult.fulfilled (0 : ℕ))
      (⟨fun _ => .ok "x", fun _ => .ok ⟨some "2026-01-05", none, none, ()⟩⟩ :
        GenService (Insights Unit (List (String × Slot ℕ))))
      (fun _ => "p") "2026-02-02" "2026-02-02T08:00:00.000Z"
      ⟨some "2026-01-05", none, none, ()⟩ rfl).2.2.1
      "2026-01-05" rfl (by decide)⟩

/-- **C3.**  The narrative step retries exactly once, and only on a parse
failure: an API-call failure on the first request propagates with a single
request issued; a first response that parses completes with one request;
a first response that fails to parse triggers exactly one retry whose
request is the original conversation plus the assistant's raw reply and
the correction message — if the retry parses the run completes with the
retry's parsed content, and if it fails to parse too the run ends in a
parse failure (exit code 1), never substituting data; in every case at
most two requests are issued. -/
theorem claim_C3_retry_exactly_once :
    ∀ {Doc : Type} (svc : GenService Doc) (prompt : String),
      (∀ e, svc.call [.user prompt] = .error e →
        narrativeStep svc prompt = (.error (.thrown e), [[.user prompt]])) ∧
      (∀ raw doc, svc.call [.user prompt] = .ok raw →
        svc.parse (cleanResponse raw) = .ok doc →
        narrativeStep svc prompt = (.ok doc, [[.user prompt]])) ∧
      (∀ raw retryText doc, svc.call [.user prompt] = .ok raw →
        svc.parse (cleanResponse raw) = .error () →
        svc.call [.user prompt, .assistant raw, .user correctionMsg] = .ok retryText →
        svc.parse (jsTrim retryText) = .ok doc →
        narrativeStep svc prompt =
          (.ok doc,
           [[.user prompt], [.user prompt, .assistant raw, .user correctionMsg]])) ∧
      (∀ raw retryText, svc.call [.user prompt] = .ok raw →
        svc.parse (cleanResponse raw) = .error () →
        svc.call [.user prompt, .assistant raw, .user correctionMsg] = .ok retryText →
        svc.parse (jsTrim retryText) = .error () →
        narrativeStep svc prompt =
          (.error .parseFailed,
           [[.user prompt], [.user prompt, .assistant raw, .user correctionMsg]]) ∧
        exitCodeOf (narrativeStep svc prompt).1 = 1) ∧
      (narrativeStep svc prompt).2.length ≤ 2 := by
  intro Doc svc prompt
  refine ⟨?_, ?_, ?_, ?_, ?_⟩
  · intro e h
    rw [narrativeStep, h]
  · intro raw doc h1 h2
    rw [narrativeStep, h1]
    simp only [h2]
  · intro raw retryText doc h1 h2 h3 h4
    rw [narrativeStep, h1]
    simp only [h2, h3, h4]
  · intro raw retryText h1 h2 h3 h4
    have hmain : narrativeStep svc prompt =
        (.error .parseFailed,
         [[.user prompt], [.user prompt, .assistant raw, .user correctionMsg]]) := by
      rw [narrativeStep, h1]
      simp only [h2, h3, h4]
    exact ⟨hmain, by rw [hmain]; rfl⟩
  · rw [narrativeStep]
    cases h1 : svc.call [.user prompt] with
    | error e => simp
    | ok raw =>
      cases h2 : svc.parse (cleanResponse raw) with
      | ok doc => simp [h2]
      | error u =>
        cases h3 : svc.call [.user prompt, .assistant raw, .user correctionMsg] with
        | error e => simp [h2, h3]
        | ok retryText =>
          cases h4 : svc.parse (jsTrim retryText) <;> simp [h2, h3, h4]

theorem claim_C3_retry_exactly_once_witness :
    narrativeStep
        (⟨fun req => if req.length == 1 then .ok "bad" else .ok "42ok",
          fun s => if s == "42ok" then .ok (42 : ℕ) else .error ()⟩ : GenService ℕ)
        "p" =
      (.ok 42, [[.user "p"], [.user "p", .assistant "bad", .user correctionMsg]]) :=
  (claim_C3_retry_exactly_once
      (⟨fun req => if req.length == 1 then .ok "bad" else .ok "42ok",
        fun s => if s == "42ok" then .ok (42 : ℕ) else .error ()⟩ : GenService ℕ)
      "p").2.2.1 "bad" "42ok" 42 rfl rfl rfl rfl

/-- **C7 counterexample.**  Kit's per-broadcast enrichment does not return
the failed sub-item with an `error` field identifying the failure: a
broadcast whose stats request fails comes back as `{id, subject,
publishedAt, statsAvailable: false}` — the result is identical whatever
the failure message was (`"boom"` vs `"zap"`), so no error information is
carried — and the item is then filtered out of `completedBroadcasts`
(hence out of the returned `allBroadcasts`/`recentBroadcasts`). -/
theorem claim_C7_counterexample :
    broadcastsWithStats [⟨"b1", none, none, none, none⟩] (fun _ => .error "boom") =
      [.pending "b1" "Untitled" none] ∧
    broadcastsWithStats [⟨"b1", none, none, none, none⟩] (fun _ => .error "zap") =
      broadcastsWithStats [⟨"b1", none, none, none, none⟩] (fun _ => .error "boom") ∧
    completedBroadcasts
      (broadcastsWithStats [⟨"b1", none, none, none, none⟩] (fun _ => .error "boom")) =
      [] :=
  ⟨rfl, rfl, rfl⟩

/-- **C7 (amended).**  A failure of one item's stats request never rejects
the adapter: each per-item enrichment is total, producing one output item
per input item.  Vimeo returns the failed video inline with
`error = err.message` and surfaces `(title, error)` in the snapshot's
`errors` field, and an item whose stats fetch succeeded keeps its full
parsed data.  Unbounce captures the failed page inline with the fixed
message `error: 'Stats unavailable'` (the cause is discarded).  Kit maps
the failed broadcast to `statsAvailable: false` with no error field, and
that item never appears in `completedBroadcasts`. -/
theorem claim_C7_item_level_degradation :
    (∀ (Eng : Type) (videos : List VimeoVideo)
      (statsFetch : VimeoVideo → Except String (VimeoRow × VimeoRow))
      (engFetch : VimeoVideo → Option Eng),
      (videosWithStats videos statsFetch engFetch).length = (videos.take 15).length ∧
      (∀ video e, video ∈ videos.take 15 → statsFetch video = .error e →
        VimeoVideoResult.failed video e ∈ videosWithStats videos statsFetch engFetch ∧
        (video.title, e) ∈
          (vimeoErrorsField (videosWithStats videos statsFetch engFetch)).getD []) ∧
      (∀ video rows, video ∈ videos.take 15 → statsFetch video = .ok rows →
        VimeoVideoResult.enriched video (parseAnalytics rows.1) (parseAnalytics rows.2)
          (Vimeo.pct (some (parseAnalytics rows.1).plays)
            (some (parseAnalytics rows.2).plays))
          (Vimeo.pct (parseAnalytics rows.1).finishRate
            (parseAnalytics rows.2).finishRate)
          (engFetch video) ∈ videosWithStats videos statsFetch engFetch)) ∧
    (∀ (pages : List UnbouncePageMeta)
      (fetch : UnbouncePageMeta → Except String (UnbounceStatsRow × UnbounceStatsRow)),
      (pageStats pages fetch).length = pages.length ∧
      (∀ page e, page ∈ pages → fetch page = .error e →
        UnbouncePageResult.failed page "Stats unavailable" ∈ pageStats pages fetch)) ∧
    (∀ (broadcasts : List KitBroadcast) (fetch : KitBroadcast → Except String KitStats),
      (broadcastsWithStats broadcasts fetch).length = (broadcasts.take 8).length ∧
      (∀ b e, b ∈ broadcasts.take 8 → fetch b = .error e →
        KitBroadcastResult.pending b.id (b.subject.getD "Untitled")
          (b.published_at.orElse fun _ => b.send_at) ∈
          broadcastsWithStats broadcasts fetch) ∧
      (∀ x, x ∈ completedBroadcasts (broadcastsWithStats broadcasts fetch) →
        x.statsAvailable = true)) := by
  refine ⟨?_, ?_, ?_⟩
  · intro Eng videos statsFetch engFetch
    refine ⟨by simp [videosWithStats], ?_, ?_⟩
    · intro video e hv hfetch
      have hfm : VimeoVideoResult.failed video e ∈
          videosWithStats videos statsFetch engFetch := by
        rw [videosWithStats]
        exact List.mem_map.mpr ⟨video, hv, by rw [hfetch]⟩
      refine ⟨hfm, ?_⟩
      have hev : VimeoVideoResult.failed video e ∈
          errorVideos (videosWithStats videos statsFetch engFetch) :=
        List.mem_filter.mpr ⟨hfm, rfl⟩
      have hlen : 0 < (errorVideos (videosWithStats videos statsFetch engFetch)).length :=
        List.length_pos.mpr (List.ne_nil_of_mem hev)
      rw [vimeoErrorsField]
      simp only [hlen, if_pos, Option.getD_some]
      exact List.mem_map.mpr ⟨VimeoVideoResult.failed video e, hev, rfl⟩
    · intro video rows hv hfetch
      obtain ⟨twRow, lwRow⟩ := rows
      rw [videosWithStats]
      exact List.mem_map.mpr ⟨video, hv, by rw [hfetch]⟩
  · intro pages fetch
    refine ⟨by simp [pageStats], ?_⟩
    intro page e hp hfetch
    rw [pageStats]
    exact List.mem_map.mpr ⟨page, hp, by rw [hfetch]⟩
  · intro broadcasts fetch
    refine ⟨by simp [broadcastsWithStats], ?_, ?_⟩
    · intro b e hb hfetch
      rw [broadcastsWithStats]
      exact List.mem_map.mpr ⟨b, hb, by rw [hfetch]⟩
    · intro x hx
      exact (List.mem_filter.mp hx).2

theorem claim_C7_item_level_degradation_witness :
    VimeoVideoResult.failed ⟨"101", "VSL A", 300, 12⟩ "Vimeo API error 500" ∈
      @videosWithStats Unit [⟨"101", "VSL A", 300, 12⟩]
        (fun _ => .error "Vimeo API error 500") (fun _ => none) ∧
    ("VSL A", "Vimeo API error 500") ∈
      (vimeoErrorsField (@videosWithStats Unit [⟨"101", "VSL A", 300, 12⟩]
        (fun _ => .error "Vimeo API error 500") (fun _ => none))).getD [] ∧
    UnbouncePageResult.failed ⟨"p1", "LP", "https://x", "published"⟩ "Stats unavailable" ∈
      pageStats [⟨"p1", "LP", "https://x", "published"⟩] (fun _ => .error "HTTP 500") :=
  ⟨(((claim_C7_item_level_degradation.1 Unit [⟨"101", "VSL A", 300, 12⟩]
      (fun _ => .error "Vimeo API error 500") (fun _ => none)).2.1
      ⟨"101", "VSL A", 300, 12⟩ "Vimeo API error 500" (by decide) rfl)).1,
   (((claim_C7_item_level_degradation.1 Unit [⟨"101", "VSL A", 300, 12⟩]
      (fun _ => .error "Vimeo API error 500") (fun _ => none)).2.1
      ⟨"101", "VSL A", 300, 12⟩ "Vimeo API error 500" (by decide) rfl)).2,
   ((claim_C7_item_level_degradation.2.1 [⟨"p1", "LP", "https://x", "published"⟩]
      (fun _ => .error "HTTP 500")).2
      ⟨"p1", "LP", "https://x", "published"⟩ "HTTP 500" (by decide) rfl)⟩

theorem claim_C10_parseAnalytics_guards_witness :
    (parseAnalytics ⟨some 5, some 2, some 10, some 30⟩).playRate =
      some (Vimeo.round (5 / 10 * 100) 1) ∧
    (parseAnalytics ⟨some 5, some 2, some 0, none⟩).playRate = none ∧
    (parseAnalytics ⟨none, some 2, some 10, none⟩).finishRate = none := by
  refine ⟨?_, ?_, ?_⟩
  · have h := (claim_C10_parseAnalytics_guards ⟨some 5, some 2, some 10, some 30⟩).2.2.1
      10 rfl (by norm_num)
    simpa using h
  · exact (claim_C10_parseAnalytics_guards ⟨some 5, some 2, some 0, none⟩).2.1
      0 rfl (by norm_num)
  · exact (claim_C10_parseAnalytics_guards ⟨none, some 2, some 10, none⟩).2.2.2.1 rfl

end DTM
